import Mathlib

/-!
Verification development for the bastion-mediated tunnel session manager
(scripts/python/backend_sessions.py, scripts/python/bastion.py,
scripts/python/common.py).

The Python code is shallowly embedded: the OCI CLI, the OS process layer
and the user confirmation prompt are modelled as oracles (structures of
functions), and each script function becomes a pure Lean function from
those oracles and the current registry state to its results.  The tunnel
registry (one JSON file per local port under TUNNEL_DIR) is modelled as a
list of records keyed by the local_port field.
-/

namespace AdsOps

/-- Outcome of delivering a signal with os.kill: none models success,
some e models a raised OSError with a particular error kind (ESRCH for a
missing process, EPERM for a permission error against a live process of
another user, other codes otherwise). -/
inductive OSErr where
  | esrch
  | eperm
  | other (code : Nat)
deriving DecidableEq

/-- The OS process layer consumed by the scripts: probeSignal models
os.kill(pid, 0), termSignal models os.kill(pid, SIGTERM), expanduser
models os.path.expanduser, and spawnPid is the pid subprocess.Popen
assigns to the next spawned process. -/
structure OSLayer where
  probeSignal : Nat → Option OSErr
  termSignal : Nat → Option OSErr
  expanduser : String → String
  spawnPid : Nat

/-- Session data returned by the oci bastion session get call, as read by
the scripts: the bastion-id, lifecycle-state and ssh-metadata command
fields (the command is the empty string when ssh-metadata has no command,
mirroring ssh_metadata.get of the source). -/
structure Session where
  bastionId : String
  lifecycleState : String
  sshCommand : String
deriving DecidableEq

/-- Bastion data returned by the oci bastion bastion get call: the
bastion-endpoint field. -/
structure Bastion where
  endpoint : String
deriving DecidableEq

/-- The Bastion Control API as consumed through run_oci_command: each
field models one CLI call, returning none when the call produced no data
(failure, timeout, or missing data key).  deleteExit is the process exit
code of the session delete call, through which run_oci_command with
check=True either returns or raises CalledProcessError. -/
structure OCIApi where
  getSession : String → Option Session
  getBastion : String → Option Bastion
  createSession : String → String → String → String → Option String
  deleteExit : String → Nat

/-- Environment-derived configuration (BASTION_OCID, SSH_KEY). -/
structure Config where
  bastionOcid : String
  sshKey : String

/-- One tunnel record, the JSON object start_tunnel writes to
tunnel-LOCALPORT.json. -/
structure TunnelRecord where
  pid : Nat
  session_id : String
  local_port : String
  target_host : String
  target_port : String
  bastion_endpoint : String
deriving DecidableEq

/-- The tunnel registry directory: a list of records, keyed by the
local_port field (one file per local port). -/
abbrev Registry := List TunnelRecord

/-- Python truthiness choice x or y for an optional string argument:
a missing or empty value falls back to the default. -/
def pyOr (o : Option String) (d : String) : String :=
  match o with
  | none => d
  | some s => if s = "" then d else s

/-- Reading tunnel-PORT.json: the record whose local_port is PORT, if its
file exists. -/
def registryGet (reg : Registry) (p : String) : Option TunnelRecord :=
  reg.find? (fun r => r.local_port == p)

/-- Unlinking tunnel-PORT.json: drops the record keyed by PORT. -/
def registryRemove (reg : Registry) (p : String) : Registry :=
  reg.filter (fun r => r.local_port != p)

/-- Writing tunnel-PORT.json with open(w): replaces whatever record was
stored under the record's local_port key. -/
def registryInsert (reg : Registry) (r : TunnelRecord) : Registry :=
  r :: registryRemove reg r.local_port

/-- Liveness probe of list_tunnels: os.kill(pid, 0) raising no OSError. -/
def isAlive (os : OSLayer) (pid : Nat) : Bool :=
  (os.probeSignal pid).isNone

/-- The ssh argv built by start_tunnel. -/
def ssh_cmd (session_id bastion_endpoint local_port target_host target_port ssh_key : String) : List String :=
  ["ssh", "-N",
   "-L", local_port ++ (":") ++ target_host ++ (":") ++ target_port,
   "-p", "22",
   session_id ++ ("@") ++ bastion_endpoint,
   "-i", ssh_key,
   "-o", "StrictHostKeyChecking=no",
   "-o", "UserKnownHostsFile=/dev/null"]

/-- How a start_tunnel invocation ended: failSession and failBastion are
the two early None returns, started is the background branch returning
the spawned pid, execed is the foreground branch replacing the process
image with the ssh command (and never returning in the source). -/
inductive StartOutcome where
  | failSession
  | failBastion
  | started (pid : Nat)
  | execed (cmd : List String)
deriving DecidableEq

/-- Result of start_tunnel: the registry after the call, the argv of
every process it spawned with subprocess.Popen, and its outcome. -/
structure StartResult where
  registry : Registry
  spawned : List (List String)
  outcome : StartOutcome
deriving DecidableEq

/-- start_tunnel of backend_sessions.py: fetches the session, fetches the
bastion of the session's bastion-id, builds the ssh command, and in
background mode spawns it and writes the tunnel record keyed by
local_port; in foreground mode it execs the command.  No check of the
session's lifecycle state and no check for an existing record on the
local port is performed. -/
def start_tunnel (cfg : Config) (api : OCIApi) (os : OSLayer) (reg : Registry)
    (session_id local_port target_host target_port : String)
    (ssh_key : Option String) (background : Bool) : StartResult :=
  let key := pyOr ssh_key cfg.sshKey
  match api.getSession session_id with
  | none => ⟨reg, [], .failSession⟩
  | some session =>
    match api.getBastion session.bastionId with
    | none => ⟨reg, [], .failBastion⟩
    | some bastion =>
      let cmd := ssh_cmd session_id bastion.endpoint local_port target_host target_port
        (os.expanduser key)
      if background then
        ⟨registryInsert reg
          ⟨os.spawnPid, session_id, local_port, target_host, target_port, bastion.endpoint⟩,
         [cmd], .started os.spawnPid⟩
      else
        ⟨reg, [], .execed cmd⟩

/-- The line list_tunnels prints for a running tunnel. -/
def tunnel_line (r : TunnelRecord) : String :=
  toString r.pid ++ ("\tlocalhost:") ++ r.local_port ++ ("\t->\t")
    ++ r.target_host ++ (":") ++ r.target_port ++ ("\tRUNNING")

/-- list_tunnels of backend_sessions.py: walks every record, probes the
recorded pid with signal 0, unlinks the file of every record whose probe
raised OSError, and prints one line per surviving record.  Returns the
registry after the walk and the printed lines. -/
def list_tunnels (os : OSLayer) : Registry → Registry × List String
  | [] => ([], [])
  | r :: rest =>
    let p := list_tunnels os rest
    if isAlive os r.pid then (r :: p.1, tunnel_line r :: p.2) else p

/-- How close_tunnel ended: notFound is the logged error return for a
missing record (no exception), closed is a delivered SIGTERM, and
closedDeadWarn is the caught OSError branch that only logs a warning. -/
inductive CloseResult where
  | notFound
  | closed (pid : Nat)
  | closedDeadWarn (pid : Nat)
deriving DecidableEq

/-- close_tunnel of backend_sessions.py: a missing record logs an error
and returns; an existing record gets SIGTERM (an OSError is caught and
logged as a warning) and its file is unlinked unconditionally. -/
def close_tunnel (os : OSLayer) (reg : Registry) (local_port : String) : Registry × CloseResult :=
  match registryGet reg local_port with
  | none => (reg, .notFound)
  | some r =>
    match os.termSignal r.pid with
    | none => (registryRemove reg local_port, .closed r.pid)
    | some _ => (registryRemove reg local_port, .closedDeadWarn r.pid)

/-- close_all_tunnels of backend_sessions.py: signals every recorded pid
with SIGTERM (OSError ignored) and unlinks every record file, leaving the
registry empty; returns the registry after the walk and the signalled
pids. -/
def close_all_tunnels (os : OSLayer) : Registry → Registry × List Nat
  | [] => ([], [])
  | r :: rest =>
    let p := close_all_tunnels os rest
    (p.1, r.pid :: p.2)

/-- create_port_forward_session of backend_sessions.py: falls back to
BASTION_OCID for a missing bastion id, rejects missing arguments, and
otherwise returns the id of the created session when the CLI call
produced data. -/
def create_port_forward_session (cfg : Config) (api : OCIApi)
    (target_host target_port session_name : String) (bastion_id : Option String) : Option String :=
  let bid := pyOr bastion_id cfg.bastionOcid
  if bid = "" ∨ target_host = "" ∨ target_port = "" then none
  else api.createSession bid target_host target_port session_name

/-- Result of one orchestrator helper run: the registry after the run,
every argv spawned, the process exit code (0 for a normal return, 1 for
sys.exit(1)), and the blocking client command handed to os.system, when
one was reached. -/
structure RunOutcome where
  registry : Registry
  spawned : List (List String)
  exitCode : Nat
  clientCmd : Option String
deriving DecidableEq

/-- quick_tunnel of backend_sessions.py: checks arguments, defaults the
local port to the target port, creates the session (exiting non-zero when
none is returned) and starts a background tunnel, ignoring the start
result. -/
def quick_tunnel (cfg : Config) (api : OCIApi) (os : OSLayer) (reg : Registry)
    (target_host target_port : String) (local_port bastion_id : Option String) : RunOutcome :=
  if target_host = "" ∨ target_port = "" then ⟨reg, [], 1, none⟩
  else
    let lp := pyOr local_port target_port
    match create_port_forward_session cfg api target_host target_port ("quick-tunnel") bastion_id with
    | none => ⟨reg, [], 1, none⟩
    | some sid =>
      let st := start_tunnel cfg api os reg sid lp target_host target_port none true
      ⟨st.registry, st.spawned, 0, none⟩

/-- connect_postgres of backend_sessions.py: checks arguments, defaults
the local port to the target port, creates the session, starts a
background tunnel, exits non-zero when either returned nothing, and then
hands off to a blocking psql client against the local port. -/
def connect_postgres (cfg : Config) (api : OCIApi) (os : OSLayer) (reg : Registry)
    (host port database username : String) (local_port bastion_id : Option String) : RunOutcome :=
  if host = "" ∨ port = "" ∨ database = "" ∨ username = "" then ⟨reg, [], 1, none⟩
  else
    let lp := pyOr local_port port
    match create_port_forward_session cfg api host port ("postgres-session") bastion_id with
    | none => ⟨reg, [], 1, none⟩
    | some sid =>
      let st := start_tunnel cfg api os reg sid lp host port none true
      match st.outcome with
      | .started _ =>
        ⟨st.registry, st.spawned, 0,
         some (("psql -h localhost -p ") ++ lp ++ (" -U ") ++ username ++ (" -d ") ++ database)⟩
      | _ => ⟨st.registry, st.spawned, 1, none⟩

/-- connect_mysql of backend_sessions.py: same sequencing as
connect_postgres with a mysql client hand-off. -/
def connect_mysql (cfg : Config) (api : OCIApi) (os : OSLayer) (reg : Registry)
    (host port database username : String) (local_port bastion_id : Option String) : RunOutcome :=
  if host = "" ∨ port = "" ∨ database = "" ∨ username = "" then ⟨reg, [], 1, none⟩
  else
    let lp := pyOr local_port port
    match create_port_forward_session cfg api host port ("mysql-session") bastion_id with
    | none => ⟨reg, [], 1, none⟩
    | some sid =>
      let st := start_tunnel cfg api os reg sid lp host port none true
      match st.outcome with
      | .started _ =>
        ⟨st.registry, st.spawned, 0,
         some (("mysql -h 127.0.0.1 -P ") ++ lp ++ (" -u ") ++ username ++ (" -p ") ++ database)⟩
      | _ => ⟨st.registry, st.spawned, 1, none⟩

/-- connect_redis of backend_sessions.py: same sequencing with a
redis-cli hand-off; only the host is mandatory. -/
def connect_redis (cfg : Config) (api : OCIApi) (os : OSLayer) (reg : Registry)
    (host port : String) (local_port bastion_id : Option String) : RunOutcome :=
  if host = "" then ⟨reg, [], 1, none⟩
  else
    let lp := pyOr local_port port
    match create_port_forward_session cfg api host port ("redis-session") bastion_id with
    | none => ⟨reg, [], 1, none⟩
    | some sid =>
      let st := start_tunnel cfg api os reg sid lp host port none true
      match st.outcome with
      | .started _ =>
        ⟨st.registry, st.spawned, 0, some (("redis-cli -h 127.0.0.1 -p ") ++ lp)⟩
      | _ => ⟨st.registry, st.spawned, 1, none⟩

/-- connect_mongodb of backend_sessions.py: same sequencing with a
mongosh hand-off; only the host is mandatory. -/
def connect_mongodb (cfg : Config) (api : OCIApi) (os : OSLayer) (reg : Registry)
    (host port database : String) (local_port bastion_id : Option String) : RunOutcome :=
  if host = "" then ⟨reg, [], 1, none⟩
  else
    let lp := pyOr local_port port
    match create_port_forward_session cfg api host port ("mongodb-session") bastion_id with
    | none => ⟨reg, [], 1, none⟩
    | some sid =>
      let st := start_tunnel cfg api os reg sid lp host port none true
      match st.outcome with
      | .started _ =>
        ⟨st.registry, st.spawned, 0,
         some (("mongosh mongodb://127.0.0.1:") ++ lp ++ ("/") ++ database)⟩
      | _ => ⟨st.registry, st.spawned, 1, none⟩

/-- How connect_session of bastion.py ended: exitFail is any sys.exit(1)
path (missing arguments, failed session lookup, or a session whose
lifecycle state is not ACTIVE), ran is the os.system hand-off with the
substituted command, noCommand is the logged error for a session without
an ssh-metadata command. -/
inductive ConnectResult where
  | exitFail
  | ran (cmd : String)
  | noCommand
deriving DecidableEq

/-- connect_session of bastion.py: fetches the session, exits non-zero
unless its lifecycle state is ACTIVE, substitutes the local port and the
expanded key path into the ssh-metadata command template and runs it. -/
def connect_session (api : OCIApi) (os : OSLayer) (session_id local_port ssh_key : String) : ConnectResult :=
  if session_id = "" ∨ local_port = "" then .exitFail
  else
    match api.getSession session_id with
    | none => .exitFail
    | some s =>
      if s.lifecycleState ≠ ("ACTIVE") then .exitFail
      else if s.sshCommand = "" then .noCommand
      else .ran ((s.sshCommand.replace ("<localPort>") local_port).replace ("<privateKey>")
        (os.expanduser ssh_key))

/-- How delete_session of bastion.py ended: exitFail for a missing id,
cancelled for a declined confirmation, deleted for a zero CLI exit, and
raised for the CalledProcessError that run_oci_command with check=True
re-raises on a non-zero CLI exit. -/
inductive DeleteResult where
  | exitFail
  | cancelled
  | deleted
  | raised (code : Nat)
deriving DecidableEq

/-- The argv of the session delete CLI call issued by delete_session. -/
def delete_cmd (sid : String) : List String :=
  ["bastion", "session", "delete", "--session-id", sid, "--force"]

/-- delete_session of bastion.py: exits non-zero for a missing id, asks
for confirmation and returns doing nothing when it is declined, then
issues the delete CLI call through run_oci_command with check=True, which
raises whenever the call exits non-zero.  Returns every CLI call issued
together with the outcome. -/
def delete_session (api : OCIApi) (confirm : Bool) (session_id : String) :
    List (List String) × DeleteResult :=
  if session_id = "" then ([], .exitFail)
  else if ¬ confirm then ([], .cancelled)
  else if api.deleteExit session_id = 0 then ([delete_cmd session_id], .deleted)
  else ([delete_cmd session_id], .raised (api.deleteExit session_id))

/-! Helper lemmas shared by the claim theorems. -/

/-- The walk of list_tunnels computes, in one pass, the filter of the
registry by liveness (the surviving files) and the printed lines of the
surviving records. -/
theorem list_tunnels_eq (os : OSLayer) (reg : Registry) :
    list_tunnels os reg = (reg.filter (fun r => isAlive os r.pid),
      (reg.filter (fun r => isAlive os r.pid)).map tunnel_line) := by
  induction reg with
  | nil => rfl
  | cons r rest ih =>
    simp only [list_tunnels, ih, List.filter, List.map]
    cases h : isAlive os r.pid <;> simp [h]

/-- After removing the record of a port, the port has no record. -/
theorem registryGet_remove (reg : Registry) (p : String) :
    registryGet (registryRemove reg p) p = none := by
  rw [registryGet, List.find?_eq_none]
  intro x hx
  simp only [registryRemove, List.mem_filter, bne_iff_ne, ne_eq] at hx
  simp [hx.2]

/-- Concrete environments used by the closed witness and counterexample
theorems below. -/
def cfgA : Config := ⟨"ocid.bastion.a", "~/.ssh/id_rsa"⟩

/-- An OS layer where every pid is alive, signals always succeed, and the
next spawned pid is 42. -/
def osA : OSLayer := ⟨fun _ => none, fun _ => none, id, 42⟩

/-- An OS layer where every signal raises a permission error. -/
def osPerm : OSLayer := ⟨fun _ => some .eperm, fun _ => some .eperm, id, 7⟩

/-- An OS layer where every signal raises ESRCH (no such process). -/
def osDead : OSLayer := ⟨fun _ => some .esrch, fun _ => some .esrch, id, 9⟩

/-- A concrete tunnel record on local port 5432 with pid 41. -/
def recA : TunnelRecord :=
  ⟨41, "sessA", "5432", "10.0.1.5", "5432", "bastA.endpoint:22"⟩

/-- An API where session sessB exists, ACTIVE, on bastion bastA, and
every CLI call succeeds. -/
def apiA : OCIApi :=
  ⟨fun sid => if sid = ("sessB") then some ⟨"bastA", "ACTIVE", ""⟩ else none,
   fun bid => if bid = ("bastA") then some ⟨"bastA.endpoint:22"⟩ else none,
   fun _ _ _ _ => some ("sessB"),
   fun _ => 0⟩

/-- An API where session sessD exists but is DELETED, and where session
creation and deletion fail (non-zero exit for delete). -/
def apiD : OCIApi :=
  ⟨fun sid => if sid = ("sessD") then some ⟨"bastA", "DELETED", ""⟩ else none,
   fun bid => if bid = ("bastA") then some ⟨"bastA.endpoint:22"⟩ else none,
   fun _ _ _ _ => none,
   fun _ => 1⟩

/-! Claim theorems. -/

/-- C1: for every tunnel registered and never closed, list_tunnels keeps
its record and prints it exactly when its owning process is still alive;
the registry after the call is the liveness filter of the registry before
it (every dead record's file is unlinked), and the printed lines are
exactly the lines of the surviving live records. -/
theorem list_tunnels_reports_iff_alive (os : OSLayer) (reg : Registry) :
    (list_tunnels os reg).1 = reg.filter (fun r => isAlive os r.pid) ∧
    (list_tunnels os reg).2 = ((list_tunnels os reg).1).map tunnel_line ∧
    ∀ r : TunnelRecord, r ∈ (list_tunnels os reg).1 ↔ (r ∈ reg ∧ isAlive os r.pid = true) := by
  rw [list_tunnels_eq]
  refine ⟨rfl, rfl, ?_⟩
  intro r
  simp [List.mem_filter]

/-- C8: writing the record of a local port and then reading that port
returns exactly the six fields that were written (pid, session id, local
port, target host, target port, bastion endpoint), unchanged. -/
theorem register_get_roundtrip (reg : Registry) (pid : Nat) (sid lp th tp ep : String) :
    registryGet (registryInsert reg ⟨pid, sid, lp, th, tp, ep⟩) lp =
      some ⟨pid, sid, lp, th, tp, ep⟩ := by
  simp [registryGet, registryInsert, List.find?_cons]

/-- C9: whenever the signal-0 probe of a recorded pid raises any OSError
(a permission error against another user's live process included), the
record counts as dead: list_tunnels removes it from the registry and the
printed lines reflect only the surviving records. -/
theorem probe_error_means_dead (os : OSLayer) (reg : Registry) (r : TunnelRecord) (e : OSErr)
    (h : os.probeSignal r.pid = some e) :
    isAlive os r.pid = false ∧ r ∉ (list_tunnels os reg).1 ∧
    (list_tunnels os reg).2 = ((list_tunnels os reg).1).map tunnel_line := by
  have ha : isAlive os r.pid = false := by simp [isAlive, h]
  refine ⟨ha, ?_, ?_⟩
  · rw [list_tunnels_eq]
    intro hmem
    rw [List.mem_filter] at hmem
    rw [hmem.2] at ha
    exact absurd ha (by simp)
  · rw [list_tunnels_eq]

/-- Witness for C9 at a concrete input: under an OS layer whose probe
raises EPERM for every pid, the record on port 5432 is classified dead,
deleted and not reported. -/
theorem probe_error_means_dead_witness :
    isAlive osPerm recA.pid = false ∧ recA ∉ (list_tunnels osPerm [recA]).1 ∧
    (list_tunnels osPerm [recA]).2 = ((list_tunnels osPerm [recA]).1).map tunnel_line :=
  probe_error_means_dead osPerm [recA] recA .eperm rfl

/-- C5: close_tunnel on a port with no record returns with the registry
unchanged and no exception (the notFound outcome is a logged error
return); close_tunnel on a port with a record always unlinks the record
file, both when SIGTERM is delivered and when delivering it raises an
OSError (which is only logged as a warning). -/
theorem close_tunnel_always_removes (os : OSLayer) (reg : Registry) (p : String) :
    (registryGet reg p = none → close_tunnel os reg p = (reg, .notFound)) ∧
    (∀ r : TunnelRecord, registryGet reg p = some r → os.termSignal r.pid = none →
      close_tunnel os reg p = (registryRemove reg p, .closed r.pid) ∧
      registryGet (close_tunnel os reg p).1 p = none) ∧
    (∀ (r : TunnelRecord) (e : OSErr), registryGet reg p = some r → os.termSignal r.pid = some e →
      close_tunnel os reg p = (registryRemove reg p, .closedDeadWarn r.pid) ∧
      registryGet (close_tunnel os reg p).1 p = none) := by
  refine ⟨?_, ?_, ?_⟩
  · intro h
    simp [close_tunnel, h]
  · intro r hr hs
    have he : close_tunnel os reg p = (registryRemove reg p, .closed r.pid) := by
      simp [close_tunnel, hr, hs]
    exact ⟨he, by rw [he]; exact registryGet_remove reg p⟩
  · intro r e hr hs
    have he : close_tunnel os reg p = (registryRemove reg p, .closedDeadWarn r.pid) := by
      simp [close_tunnel, hr, hs]
    exact ⟨he, by rw [he]; exact registryGet_remove reg p⟩

/-- Witness for C5 at concrete inputs: a port with no record is a no-op,
and a record whose process is already dead (SIGTERM raises ESRCH) is
still removed. -/
theorem close_tunnel_always_removes_witness :
    close_tunnel osDead ([] : Registry) ("5432") = (([] : Registry), .notFound) ∧
    close_tunnel osDead [recA] ("5432") = (registryRemove [recA] ("5432"), .closedDeadWarn 41) := by
  refine ⟨(close_tunnel_always_removes osDead ([] : Registry) ("5432")).1 rfl, ?_⟩
  exact ((close_tunnel_always_removes osDead [recA] ("5432")).2.2 recA .esrch (by decide) rfl).1

/-- The full record that a successful background start_tunnel writes on
port 5432 for session sessB in the concrete environment apiA. -/
def recB : TunnelRecord :=
  ⟨42, "sessB", "5432", "10.0.1.5", "5432", "bastA.endpoint:22"⟩

/-- Counterexample for C2: with a live record recA already registered on
local port 5432 (its pid is alive under osA), start_tunnel for a new
session on the same port is not rejected: it spawns, succeeds, and its
write replaces the existing record. -/
theorem start_tunnel_overwrites_live_record :
    isAlive osA recA.pid = true ∧
    (start_tunnel cfgA apiA osA [recA] ("sessB") ("5432") ("10.0.1.5") ("5432") none true).outcome
      = .started 42 ∧
    registryGet (start_tunnel cfgA apiA osA [recA] ("sessB") ("5432") ("10.0.1.5") ("5432")
      none true).registry ("5432") = some recB ∧
    recB ≠ recA := by
  refine ⟨rfl, by decide, by decide, by decide⟩

/-- C2 as amended: registration is never rejected and never inspects the
existing registry: whenever the session and bastion lookups succeed, the
background start_tunnel writes the new record for the local port,
replacing whatever record (live or stale) was stored under that port. -/
theorem start_tunnel_registers_unconditionally (cfg : Config) (api : OCIApi) (os : OSLayer)
    (reg : Registry) (sid lp th tp : String) (okey : Option String) (s : Session) (b : Bastion)
    (hs : api.getSession sid = some s) (hb : api.getBastion s.bastionId = some b) :
    (start_tunnel cfg api os reg sid lp th tp okey true).registry
      = registryInsert reg ⟨os.spawnPid, sid, lp, th, tp, b.endpoint⟩ ∧
    (start_tunnel cfg api os reg sid lp th tp okey true).outcome = .started os.spawnPid := by
  constructor <;> simp [start_tunnel, hs, hb]

/-- Witness for the amended C2 at a concrete input: the overwrite of the
live record on port 5432. -/
theorem start_tunnel_registers_unconditionally_witness :
    (start_tunnel cfgA apiA osA [recA] ("sessB") ("5432") ("10.0.1.5") ("5432") none true).registry
      = registryInsert [recA] ⟨42, "sessB", "5432", "10.0.1.5", "5432", "bastA.endpoint:22"⟩ ∧
    (start_tunnel cfgA apiA osA [recA] ("sessB") ("5432") ("10.0.1.5") ("5432")
      none true).outcome = .started 42 :=
  start_tunnel_registers_unconditionally cfgA apiA osA [recA] ("sessB") ("5432") ("10.0.1.5")
    ("5432") none ⟨"bastA", "ACTIVE", ""⟩ ⟨"bastA.endpoint:22"⟩ (by decide) (by decide)

/-- Counterexample for C3: session sessD is in state DELETED, not ACTIVE,
yet start_tunnel against it spawns the forwarding process and registers
the tunnel instead of failing fast. -/
theorem start_tunnel_spawns_for_non_active_session :
    (apiD.getSession ("sessD")).map Session.lifecycleState = some ("DELETED") ∧
    (start_tunnel cfgA apiD osA [] ("sessD") ("8080") ("10.0.1.5") ("8080") none true).spawned
      ≠ [] ∧
    (start_tunnel cfgA apiD osA [] ("sessD") ("8080") ("10.0.1.5") ("8080") none true).outcome
      = .started 42 := by
  refine ⟨by decide, by decide, by decide⟩

/-- C3 as amended: only connect_session of bastion.py enforces the ACTIVE
invariant, exiting non-zero before running anything for a session whose
lifecycle state is not ACTIVE; start_tunnel of backend_sessions.py
performs no lifecycle-state check and spawns the forwarding process for
any session whose lookups succeed, whatever its state. -/
theorem active_check_only_in_connect_session (cfg : Config) (api : OCIApi) (os : OSLayer)
    (reg : Registry) (sid lp th tp kpath : String) (okey : Option String)
    (s : Session) (b : Bastion)
    (hsid : sid ≠ "") (hlp : lp ≠ "")
    (hs : api.getSession sid = some s) (hstate : s.lifecycleState ≠ ("ACTIVE"))
    (hb : api.getBastion s.bastionId = some b) :
    connect_session api os sid lp kpath = .exitFail ∧
    (start_tunnel cfg api os reg sid lp th tp okey true).spawned
      = [ssh_cmd sid b.endpoint lp th tp (os.expanduser (pyOr okey cfg.sshKey))] ∧
    (start_tunnel cfg api os reg sid lp th tp okey true).outcome = .started os.spawnPid := by
  refine ⟨?_, ?_, ?_⟩
  · simp [connect_session, hsid, hlp, hs, hstate]
  · simp [start_tunnel, hs, hb]
  · simp [start_tunnel, hs, hb]

/-- Witness for the amended C3 at a concrete input: the DELETED session
sessD is refused by connect_session but tunnelled by start_tunnel. -/
theorem active_check_only_in_connect_session_witness :
    connect_session apiD osA ("sessD") ("8080") ("~/.ssh/id_rsa") = .exitFail ∧
    (start_tunnel cfgA apiD osA [] ("sessD") ("8080") ("10.0.1.5") ("8080") none true).spawned
      = [ssh_cmd ("sessD") ("bastA.endpoint:22") ("8080") ("10.0.1.5") ("8080")
          (osA.expanduser (pyOr none cfgA.sshKey))] ∧
    (start_tunnel cfgA apiD osA [] ("sessD") ("8080") ("10.0.1.5") ("8080") none true).outcome
      = .started 42 :=
  active_check_only_in_connect_session cfgA apiD osA [] ("sessD") ("8080") ("10.0.1.5") ("8080")
    ("~/.ssh/id_rsa") none ⟨"bastA", "DELETED", ""⟩ ⟨"bastA.endpoint:22"⟩
    (by decide) (by decide) (by decide) (by decide) (by decide)

/-- Counterexample for C4: when the delete CLI call exits non-zero, as it
does for an unknown or already-deleted session, delete_session raises the
CalledProcessError re-raised by run_oci_command with check=True, so a
repeat deletion is a hard failure for the caller. -/
theorem delete_session_raises_on_cli_failure :
    delete_session apiD true ("ocid.sess.gone")
      = ([delete_cmd ("ocid.sess.gone")], .raised 1) := by
  decide

/-- C4 as amended: delete_session adds no handling for already-deleted or
unknown sessions: after a confirmed prompt it issues exactly one delete
CLI call and propagates that call's outcome verbatim, returning normally
on a zero exit and raising on any non-zero exit; a second deletion of the
same id therefore errors exactly when the external CLI does. -/
theorem delete_session_propagates_cli_exit (api : OCIApi) (confirm : Bool) (sid : String)
    (hsid : sid ≠ "") (hc : confirm = true) :
    (api.deleteExit sid = 0 → delete_session api confirm sid = ([delete_cmd sid], .deleted)) ∧
    (∀ c : Nat, api.deleteExit sid = c → c ≠ 0 →
      delete_session api confirm sid = ([delete_cmd sid], .raised c)) := by
  subst hc
  constructor
  · intro h
    simp [delete_session, hsid, h]
  · intro c h hc0
    simp [delete_session, hsid, h, hc0]

/-- Witness for the amended C4 at a concrete input: a zero CLI exit
deletes, a non-zero CLI exit raises. -/
theorem delete_session_propagates_cli_exit_witness :
    delete_session apiA true ("sessB") = ([delete_cmd ("sessB")], .deleted) ∧
    delete_session apiD true ("sessD") = ([delete_cmd ("sessD")], .raised 1) :=
  ⟨(delete_session_propagates_cli_exit apiA true ("sessB") (by decide) rfl).1 rfl,
   (delete_session_propagates_cli_exit apiD true ("sessD") (by decide) rfl).2 1 rfl (by decide)⟩

/-- C6: when session creation returns no session (failure or timeout),
quick_tunnel exits non-zero with the registry unchanged and no process
spawned: the tunnel-launch and registration steps are never reached. -/
theorem quick_tunnel_create_failure_aborts (cfg : Config) (api : OCIApi) (os : OSLayer)
    (reg : Registry) (th tp : String) (lp bid : Option String)
    (hth : th ≠ "") (htp : tp ≠ "")
    (hfail : create_port_forward_session cfg api th tp ("quick-tunnel") bid = none) :
    quick_tunnel cfg api os reg th tp lp bid = ⟨reg, [], 1, none⟩ := by
  simp [quick_tunnel, hth, htp, hfail]

/-- Witness for C6 at a concrete input: under apiD session creation
returns none, and quick_tunnel aborts with exit code 1, an unchanged
registry and nothing spawned. -/
theorem quick_tunnel_create_failure_aborts_witness :
    quick_tunnel cfgA apiD osA [recA] ("10.0.1.5") ("5432") none none
      = ⟨[recA], [], 1, none⟩ :=
  quick_tunnel_create_failure_aborts cfgA apiD osA [recA] ("10.0.1.5") ("5432") none none
    (by decide) (by decide) (by decide)

/-- Unrolling close_all_tunnels: it always empties the registry and
signals every recorded pid, consulting no confirmation. -/
theorem close_all_tunnels_eq (os : OSLayer) (reg : Registry) :
    close_all_tunnels os reg = (([] : Registry), reg.map TunnelRecord.pid) := by
  induction reg with
  | nil => rfl
  | cons r rest ih => simp [close_all_tunnels, ih]

/-- Counterexample for C7: force-closing a tunnel proceeds with no
confirmation step at all: close_tunnel and close_all_tunnels take no
confirmation input, and on a concrete registry they signal the recorded
pid and delete the record unconditionally. -/
theorem close_without_confirmation :
    close_tunnel osA [recA] ("5432") = (([] : Registry), .closed 41) ∧
    close_all_tunnels osA [recA] = (([] : Registry), [41]) := by
  constructor <;> decide

/-- C7 as amended: only session deletion asks for confirmation, and a
declined confirmation returns with no CLI call issued; close_tunnel and
close_all_tunnels never consult any confirmation and no override flag
exists — they signal and delete unconditionally. -/
theorem confirmation_only_for_delete_session (api : OCIApi) (os : OSLayer) (reg : Registry)
    (sid p : String) (r : TunnelRecord)
    (hsid : sid ≠ "") (hr : registryGet reg p = some r) :
    delete_session api false sid = ([], .cancelled) ∧
    (close_tunnel os reg p).1 = registryRemove reg p ∧
    close_all_tunnels os reg = (([] : Registry), reg.map TunnelRecord.pid) := by
  refine ⟨?_, ?_, close_all_tunnels_eq os reg⟩
  · simp [delete_session, hsid]
  · cases hs : os.termSignal r.pid <;> simp [close_tunnel, hr, hs]

/-- Witness for the amended C7 at a concrete input: a declined deletion
issues no CLI call, while closing the tunnel on port 5432 removes its
record with no confirmation consulted. -/
theorem confirmation_only_for_delete_session_witness :
    delete_session apiA false ("sessB") = ([], .cancelled) ∧
    (close_tunnel osA [recA] ("5432")).1 = registryRemove [recA] ("5432") ∧
    close_all_tunnels osA [recA] = (([] : Registry), ([recA] : Registry).map TunnelRecord.pid) :=
  confirmation_only_for_delete_session apiA osA [recA] ("sessB") ("5432") recA
    (by decide) (by decide)

/-- Case split on the registry effect of a background start_tunnel:
either nothing was registered (a lookup failed, registry unchanged) or
exactly the record keyed by the requested local port was inserted. -/
theorem start_tunnel_registry_cases (cfg : Config) (api : OCIApi) (os : OSLayer) (reg : Registry)
    (sid lp th tp : String) (okey : Option String) :
    (start_tunnel cfg api os reg sid lp th tp okey true).registry = reg ∨
    ∃ rec : TunnelRecord,
      (start_tunnel cfg api os reg sid lp th tp okey true).registry = registryInsert reg rec ∧
      rec.local_port = lp := by
  rcases hs : api.getSession sid with _ | s
  · simp [start_tunnel, hs]
  · rcases hb : api.getBastion s.bastionId with _ | b
    · simp [start_tunnel, hs, hb]
    · right
      exact ⟨⟨os.spawnPid, sid, lp, th, tp, b.endpoint⟩, by simp [start_tunnel, hs, hb], rfl⟩

/-- C10: in quick_tunnel and in every database-connect helper, an omitted
local port defaults to the target port: the run either leaves the
registry unchanged or registers a record whose local_port equals the
target port. -/
theorem omitted_local_port_defaults_to_target (cfg : Config) (api : OCIApi) (os : OSLayer)
    (reg : Registry) (host port database username : String) (bid : Option String) :
    ((quick_tunnel cfg api os reg host port none bid).registry = reg ∨
      ∃ rec : TunnelRecord, (quick_tunnel cfg api os reg host port none bid).registry
        = registryInsert reg rec ∧ rec.local_port = port) ∧
    ((connect_postgres cfg api os reg host port database username none bid).registry = reg ∨
      ∃ rec : TunnelRecord,
        (connect_postgres cfg api os reg host port database username none bid).registry
          = registryInsert reg rec ∧ rec.local_port = port) ∧
    ((connect_mysql cfg api os reg host port database username none bid).registry = reg ∨
      ∃ rec : TunnelRecord,
        (connect_mysql cfg api os reg host port database username none bid).registry
          = registryInsert reg rec ∧ rec.local_port = port) ∧
    ((connect_redis cfg api os reg host port none bid).registry = reg ∨
      ∃ rec : TunnelRecord, (connect_redis cfg api os reg host port none bid).registry
        = registryInsert reg rec ∧ rec.local_port = port) ∧
    ((connect_mongodb cfg api os reg host port database none bid).registry = reg ∨
      ∃ rec : TunnelRecord, (connect_mongodb cfg api os reg host port database none bid).registry
        = registryInsert reg rec ∧ rec.local_port = port) := by
  refine ⟨?_, ?_, ?_, ?_, ?_⟩
  · by_cases hg : host = "" ∨ port = ""
    · simp [quick_tunnel, hg]
    · rcases hc : create_port_forward_session cfg api host port ("quick-tunnel") bid with _ | sid
      · simp [quick_tunnel, hg, hc]
      · simpa [quick_tunnel, hg, hc, pyOr] using
          start_tunnel_registry_cases cfg api os reg sid port host port none
  · by_cases hg : host = "" ∨ port = "" ∨ database = "" ∨ username = ""
    · simp [connect_postgres, hg]
    · rcases hc : create_port_forward_session cfg api host port ("postgres-session") bid
        with _ | sid
      · simp [connect_postgres, hg, hc]
      · rcases ho : (start_tunnel cfg api os reg sid port host port none true).outcome
          with _ | _ | pid | cmd <;>
          simpa [connect_postgres, hg, hc, ho, pyOr] using
            start_tunnel_registry_cases cfg api os reg sid port host port none
  · by_cases hg : host = "" ∨ port = "" ∨ database = "" ∨ username = ""
    · simp [connect_mysql, hg]
    · rcases hc : create_port_forward_session cfg api host port ("mysql-session") bid with _ | sid
      · simp [connect_mysql, hg, hc]
      · rcases ho : (start_tunnel cfg api os reg sid port host port none true).outcome
          with _ | _ | pid | cmd <;>
          simpa [connect_mysql, hg, hc, ho, pyOr] using
            start_tunnel_registry_cases cfg api os reg sid port host port none
  · by_cases hg : host = ""
    · simp [connect_redis, hg]
    · rcases hc : create_port_forward_session cfg api host port ("redis-session") bid with _ | sid
      · simp [connect_redis, hg, hc]
      · rcases ho : (start_tunnel cfg api os reg sid port host port none true).outcome
          with _ | _ | pid | cmd <;>
          simpa [connect_redis, hg, hc, ho, pyOr] using
            start_tunnel_registry_cases cfg api os reg sid port host port none
  · by_cases hg : host = ""
    · simp [connect_mongodb, hg]
    · rcases hc : create_port_forward_session cfg api host port ("mongodb-session") bid
        with _ | sid
      · simp [connect_mongodb, hg, hc]
      · rcases ho : (start_tunnel cfg api os reg sid port host port none true).outcome
          with _ | _ | pid | cmd <;>
          simpa [connect_mongodb, hg, hc, ho, pyOr] using
            start_tunnel_registry_cases cfg api os reg sid port host port none

end AdsOps
